import Mathlib

/-!
# Verification of the `term` package (POSIX terminal / serial-port control)

Shallow embedding of `term.go`. Every operation of the package is a thin
wrapper around one or two OS system calls; we embed each Go function as a
pure Lean function of its explicit arguments together with the result the
OS returned for the underlying syscall (the "oracle" arguments).  Byte
counts are `Int` (Go `int`); OS error codes (`syscall.Errno`, `nil`-able)
are `Option Nat` with `none` for `nil`.
-/

/-- Embedding of the Go error values this package can surface.
`pathError op path code` is `os.PathError{op, path, errno}`;
`eof` is `io.EOF`; `errShortWrite` is `io.ErrShortWrite`;
`osError code` is a bare `syscall.Errno` returned without any wrapping
(as `Close` and the termios-based operations do);
`attributeError baud` is the failure of the baud-rate translation
(see `attr.setSpeed`). -/
inductive TermError where
  | pathError (op : String) (path : String) (code : Nat)
  | eof
  | errShortWrite
  | osError (code : Nat)
  | attributeError (baud : Int)
  deriving DecidableEq, Repr

/-- Does an error value carry all three of: the failing operation's name,
the subject device path, and the underlying OS error code?  Only the
`os.PathError` shape does. -/
def TermError.carriesContext : TermError → Bool
  | .pathError _ _ _ => true
  | _ => false

/-- `Term` represents an asynchronous communications port
(`type Term struct { name string; fd int }`). -/
structure Term where
  name : String
  fd : Int
  deriving DecidableEq, Repr

/-- Linux value of `syscall.O_NOCTTY` (no controlling terminal). -/
def O_NOCTTY : Nat := 256

/-- Linux value of `syscall.O_CLOEXEC` (close-on-exec). -/
def O_CLOEXEC : Nat := 524288

/-- Value of `syscall.O_RDWR` (read-write access). -/
def O_RDWR : Nat := 2

/-- The arguments `Open` hands to the OS `open` syscall:
`syscall.Open(name, syscall.O_NOCTTY|syscall.O_CLOEXEC|syscall.O_RDWR, 0666)`. -/
structure SyscallOpenArgs where
  path : String
  flags : Nat
  perm : Nat
  deriving DecidableEq, Repr

/-- The syscall invocation made by `Open` for a given device path. -/
def Open.call (name : String) : SyscallOpenArgs :=
  { path := name, flags := O_NOCTTY ||| O_CLOEXEC ||| O_RDWR, perm := 0o666 }

/-- `Open` opens an asynchronous communications port.  `os` is the outcome
of the `syscall.Open` invocation described by `Open.call name`: either an
error code or the new descriptor. -/
def Open (name : String) (os : Except Nat Nat) : Except TermError Term :=
  match os with
  | .error e => .error (.pathError "open" name e)
  | .ok fd => .ok { name := name, fd := (fd : Int) }

/-- `Read` reads up to `len(b)` bytes from the terminal.  `blen` is
`len(b)`; `osN`/`osE` are the count and error returned by
`syscall.Read(t.fd, b)`.  Returns the pair Go returns. -/
def Term.Read (t : Term) (blen : Nat) (osN : Int) (osE : Option Nat) :
    Int × Option TermError :=
  let n := if osN < 0 then 0 else osN
  if n = 0 ∧ 0 < blen ∧ osE = none then
    (0, some .eof)
  else
    match osE with
    | some e => (n, some (.pathError "read" t.name e))
    | none => (n, none)

/-- `Write` writes `len(b)` bytes to the terminal.  `blen` is `len(b)`;
`osN`/`osE` are the count and error returned by `syscall.Write(t.fd, b)`. -/
def Term.Write (t : Term) (blen : Nat) (osN : Int) (osE : Option Nat) :
    Int × Option TermError :=
  let n := if osN < 0 then 0 else osN
  if n ≠ (blen : Int) then
    (n, some .errShortWrite)
  else
    match osE with
    | some e => (n, some (.pathError "write" t.name e))
    | none => (n, none)

/-- `Close` closes the device.  `osE` is the outcome of
`syscall.Close(t.fd)`.  Go runs `err := syscall.Close(t.fd)`, then
`t.fd = -1`, then returns `err` unwrapped; the embedding returns the
updated handle together with that result. -/
def Term.Close (t : Term) (osE : Option Nat) : Term × Option TermError :=
  ({ t with fd := -1 }, osE.map .osError)

/-- Linux `termios` speed constants for the common POSIX baud rates, as a
lookup from the requested integer rate to the `B...` speed code. -/
def speedCode (baud : Int) : Option Nat :=
  if baud = 0 then some 0
  else if baud = 50 then some 1
  else if baud = 75 then some 2
  else if baud = 110 then some 3
  else if baud = 134 then some 4
  else if baud = 150 then some 5
  else if baud = 200 then some 6
  else if baud = 300 then some 7
  else if baud = 600 then some 8
  else if baud = 1200 then some 9
  else if baud = 1800 then some 10
  else if baud = 2400 then some 11
  else if baud = 4800 then some 12
  else if baud = 9600 then some 13
  else if baud = 19200 then some 14
  else if baud = 38400 then some 15
  else if baud = 57600 then some 4097
  else if baud = 115200 then some 4098
  else if baud = 230400 then some 4099
  else none

/-- The native line-attribute snapshot (`type attr syscall.Termios`),
restricted to the fields this layer manipulates. -/
structure attr where
  cflag : Nat
  ispeed : Nat
  ospeed : Nat
  deriving DecidableEq, Repr

/-- Modelled from the spec: `attr.setSpeed`, the platform-specific
baud-rate translation invoked by `SetSpeed`, lives in a platform source
file that is not part of the core source.  Per the spec it must support
the common POSIX standard rates, must fail for an unsupported rate
(an AttributeError) rather than silently round, and on success mutates
the speed fields of the attribute snapshot to the requested rate. -/
def attr.setSpeed (a : attr) (baud : Int) : Except TermError attr :=
  match speedCode baud with
  | none => .error (.attributeError baud)
  | some c => .ok { a with ispeed := c, ospeed := c }

/-- `SetSpeed` sets the receive and transmit baud rates: it fetches the
current attributes (`termios.Tcgetattr`, oracle `osGet`), returning the
fetch error unwrapped if that fails, translates the baud rate, and
writes the attributes back (`termios.Tcsetattr` with `TCSANOW`, oracle
`osSet`), returning the store error unwrapped if that fails. -/
def Term.SetSpeed (t : Term) (baud : Int) (osGet : Except Nat attr)
    (osSet : Option Nat) : Option TermError :=
  match osGet with
  | .error e => some (.osError e)
  | .ok a =>
    match a.setSpeed baud with
    | .error err => some err
    | .ok _ => osSet.map .osError

/-- `Flush` discards data received but not read and data written but not
transmitted (`termios.Tcflush(fd, TCIOFLUSH)`); the termios result is
returned unwrapped. -/
def Term.Flush (t : Term) (osE : Option Nat) : Option TermError :=
  osE.map .osError

/-- `SendBreak` sends a break signal (`termios.Tcsendbreak(fd, 0)`); the
termios result is returned unwrapped. -/
def Term.SendBreak (t : Term) (osE : Option Nat) : Option TermError :=
  osE.map .osError

/-- `Status` is the current MODEM status bitmask (`type Status int`). -/
abbrev Status := Int

/-- `Status()` fetches the MODEM bits (`termios.Tiocmget`): on failure it
returns `(0, err)` with the error unwrapped, otherwise the fetched mask. -/
def Term.Status (t : Term) (os : Except Nat Int) : Status × Option TermError :=
  match os with
  | .error e => (0, some (.osError e))
  | .ok s => (s, none)

/-- `SetStatus` writes the MODEM bitmask verbatim (`termios.Tiocmset`);
the termios result is returned unwrapped. -/
def Term.SetStatus (t : Term) (s : Int) (osE : Option Nat) : Option TermError :=
  osE.map .osError

/-- Linux value of `syscall.TIOCM_DTR` (bit 1). -/
def TIOCM_DTR : Int := 2

/-- `SetDTR` sets or clears the DTR bit:
`(*s) |= TIOCM_DTR` when `v`, `(*s) &= ^TIOCM_DTR` otherwise. -/
def Status.SetDTR (s : Status) (v : Bool) : Status :=
  if v then Int.lor s TIOCM_DTR else Int.land s (Int.lnot TIOCM_DTR)

/-- `DTR` reports the DTR bit: `(*s)&TIOCM_DTR == TIOCM_DTR`. -/
def Status.DTR (s : Status) : Bool :=
  Int.land s TIOCM_DTR == TIOCM_DTR

/-! ## Helper lemmas -/

/-- Two integers with the same binary digits (two's complement) are equal. -/
theorem int_eq_of_testBit_eq {m n : ℤ} (h : ∀ i, m.testBit i = n.testBit i) :
    m = n := by
  cases m with
  | ofNat m =>
    cases n with
    | ofNat n =>
      exact congrArg Int.ofNat (Nat.eq_of_testBit_eq fun i => h i)
    | negSucc n =>
      have hb := h (max m n + 1)
      rw [show Int.testBit (Int.ofNat m) (max m n + 1) = Nat.testBit m (max m n + 1) from rfl,
        show Int.testBit (Int.negSucc n) (max m n + 1) = !(Nat.testBit n (max m n + 1)) from rfl,
        Nat.testBit_lt_two_pow (lt_of_le_of_lt (le_max_left m n)
          (lt_of_lt_of_le (Nat.lt_two_pow _) (Nat.pow_le_pow_right (by norm_num) (by omega)))),
        Nat.testBit_lt_two_pow (lt_of_le_of_lt (le_max_right m n)
          (lt_of_lt_of_le (Nat.lt_two_pow _) (Nat.pow_le_pow_right (by norm_num) (by omega))))]
        at hb
      exact absurd hb (by simp)
  | negSucc m =>
    cases n with
    | ofNat n =>
      have hb := h (max m n + 1)
      rw [show Int.testBit (Int.negSucc m) (max m n + 1) = !(Nat.testBit m (max m n + 1)) from rfl,
        show Int.testBit (Int.ofNat n) (max m n + 1) = Nat.testBit n (max m n + 1) from rfl,
        Nat.testBit_lt_two_pow (lt_of_le_of_lt (le_max_left m n)
          (lt_of_lt_of_le (Nat.lt_two_pow _) (Nat.pow_le_pow_right (by norm_num) (by omega)))),
        Nat.testBit_lt_two_pow (lt_of_le_of_lt (le_max_right m n)
          (lt_of_lt_of_le (Nat.lt_two_pow _) (Nat.pow_le_pow_right (by norm_num) (by omega))))]
        at hb
      exact absurd hb (by simp)
    | negSucc n =>
      have : m = n := Nat.eq_of_testBit_eq fun i => by
        have hb := h i
        rw [show Int.testBit (Int.negSucc m) i = !(Nat.testBit m i) from rfl,
          show Int.testBit (Int.negSucc n) i = !(Nat.testBit n i) from rfl] at hb
        exact Bool.not_inj hb
      rw [this]

/-- The DTR mask has exactly bit 1 set. -/
theorem testBit_TIOCM_DTR (i : ℕ) : Int.testBit TIOCM_DTR i = decide (i = 1) := by
  have h2 : (TIOCM_DTR : ℤ) = Int.ofNat 2 := rfl
  rw [h2, show ∀ j, Int.testBit (Int.ofNat 2) j = Nat.testBit 2 j from fun _ => rfl]
  rw [show (2 : ℕ) = 2 ^ 1 from rfl, Nat.testBit_two_pow]
  cases Nat.decEq i 1 with
  | isTrue h => simp [h]
  | isFalse h => simp [h, Ne.symm h]

/-! ## Claims -/

/-- Claim C1 (counterexample): the claim compares the raw OS count with
`len(b)`.  With an empty buffer and an OS write that fails returning the
conventional count `-1`, the raw count `-1` differs from `len(b) = 0`,
yet `Write` does not return the short-write error: the negative count is
normalized to `0 = len(b)` first, so the OS error is surfaced instead. -/
theorem C1_counterexample :
    (-1 : Int) ≠ ((0 : Nat) : Int) ∧
    (Term.Write { name := "/dev/tty", fd := 3 } 0 (-1) (some 9)).2 ≠
      some TermError.errShortWrite ∧
    (Term.Write { name := "/dev/tty", fd := 3 } 0 (-1) (some 9)).2 =
      some (TermError.pathError "write" "/dev/tty" 9) := by
  refine ⟨by decide, ?_, ?_⟩ <;> simp [Term.Write]

/-- Claim C1 (amended): whenever the normalized OS count (negative counts
normalized to zero) differs from `len(b)`, `Write` returns the
short-write error, and this check takes priority over any OS-level
error: a write that is both short and accompanied by an OS error
surfaces only the short-write error. -/
theorem C1_short_write_priority (t : Term) (blen : Nat) (osN : Int)
    (osE : Option Nat) (h : (if osN < 0 then 0 else osN) ≠ (blen : Int)) :
    (t.Write blen osN osE).2 = some TermError.errShortWrite := by
  simp only [Term.Write]
  rw [if_pos h]

/-- Claim C1 witness: a write of a 2-byte buffer where the OS reports
count 1 together with error 9 surfaces only the short-write error. -/
theorem C1_witness :
    (Term.Write { name := "d", fd := 3 } 2 1 (some 9)).2 =
      some TermError.errShortWrite :=
  C1_short_write_priority { name := "d", fd := 3 } 2 1 (some 9) (by decide)

/-- Claim C2 (counterexample): the claim makes end-of-stream equivalent to
the raw OS count being zero.  But if the OS returns count `-1` with no
error on a non-empty buffer, the count is normalized to zero and `Read`
signals end-of-stream even though the OS did not return zero bytes. -/
theorem C2_counterexample :
    (Term.Read { name := "d", fd := 3 } 1 (-1) none).2 = some TermError.eof ∧
    (-1 : Int) ≠ 0 := by
  refine ⟨?_, by decide⟩
  simp [Term.Read]

/-- Claim C2 (amended): `Read` signals end-of-stream iff the normalized
OS count (negative counts normalized to zero) is zero, the requested
buffer was non-empty, and the OS reported no error; in particular a
zero-length buffer never yields end-of-stream. -/
theorem C2_eof_iff (t : Term) (blen : Nat) (osN : Int) (osE : Option Nat) :
    ((t.Read blen osN osE).2 = some TermError.eof ↔
      ((if osN < 0 then 0 else osN) = 0 ∧ 0 < blen ∧ osE = none)) ∧
    (t.Read 0 osN osE).2 ≠ some TermError.eof := by
  constructor
  · simp only [Term.Read]
    by_cases h : (if osN < 0 then 0 else osN) = 0 ∧ 0 < blen ∧ osE = none
    · rw [if_pos h]
      exact iff_of_true rfl h
    · rw [if_neg h]
      refine iff_of_false ?_ h
      cases osE <;> simp
  · simp only [Term.Read]
    have h0 : ¬((if osN < 0 then 0 else osN) = 0 ∧ 0 < (0 : Nat) ∧ osE = none) := by
      simp
    rw [if_neg h0]
    cases osE <;> simp

/-- Claim C2 witness: a zero-count read of a 1-byte buffer with no OS
error signals end-of-stream. -/
theorem C2_witness :
    (Term.Read { name := "d", fd := 3 } 1 0 none).2 = some TermError.eof :=
  (C2_eof_iff { name := "d", fd := 3 } 1 0 none).1.mpr (by decide)

/-- Claim C3: after `Close`, the handle's descriptor field equals the
invalid sentinel `-1`, regardless of the OS close result. -/
theorem C3_close_invalidates (t : Term) (osE : Option Nat) :
    (t.Close osE).1.fd = -1 := rfl

/-- The count `Read` returns is the normalized OS count. -/
theorem read_fst (t : Term) (blen : Nat) (osN : Int) (osE : Option Nat) :
    (t.Read blen osN osE).1 = if osN < 0 then 0 else osN := by
  simp only [Term.Read]
  split
  · split
    · rfl
    · cases osE <;> rfl
  · split
    · rename_i h
      exact h.1.symm
    · cases osE <;> rfl

/-- The count `Write` returns is the normalized OS count. -/
theorem write_fst (t : Term) (blen : Nat) (osN : Int) (osE : Option Nat) :
    (t.Write blen osN osE).1 = if osN < 0 then 0 else osN := by
  simp only [Term.Write]
  split <;> split
  · rfl
  · cases osE <;> rfl
  · rfl
  · cases osE <;> rfl

/-- Claim C8: in both `Read` and `Write`, a negative OS byte count is
normalized to zero in the count returned to the caller, and the returned
count is never negative. -/
theorem C8_count_normalized (t : Term) (blen : Nat) (osN : Int)
    (osE : Option Nat) :
    0 ≤ (t.Read blen osN osE).1 ∧ 0 ≤ (t.Write blen osN osE).1 ∧
    (osN < 0 → (t.Read blen osN osE).1 = 0 ∧ (t.Write blen osN osE).1 = 0) := by
  rw [read_fst, write_fst]
  refine ⟨?_, ?_, fun h => ⟨?_, ?_⟩⟩ <;> split <;> omega

/-- Claim C8 witness: an OS count of `-7` is returned to the caller as 0
by both `Read` and `Write`. -/
theorem C8_witness :
    (Term.Read { name := "d", fd := 3 } 4 (-7) none).1 = 0 ∧
    (Term.Write { name := "d", fd := 3 } 4 (-7) none).1 = 0 :=
  (C8_count_normalized { name := "d", fd := 3 } 4 (-7) none).2.2 (by decide)

/-- Claim C9: when the OS read returns a positive count together with an
OS error, `Read` returns both that count and the wrapped error. -/
theorem C9_partial_read_kept (t : Term) (blen : Nat) (osN : Int) (e : Nat)
    (h : 0 < osN) :
    t.Read blen osN (some e) = (osN, some (TermError.pathError "read" t.name e)) := by
  have hn : ¬osN < 0 := by omega
  have hc : ¬(osN = 0 ∧ 0 < blen ∧ (some e : Option Nat) = none) := by simp
  simp only [Term.Read]
  rw [if_neg hn, if_neg hc]

/-- Claim C9 witness: an OS read of 2 bytes with error 5 returns the
count 2 and the wrapped error. -/
theorem C9_witness :
    Term.Read { name := "d", fd := 3 } 4 2 (some 5) =
      (2, some (TermError.pathError "read" "d" 5)) :=
  C9_partial_read_kept { name := "d", fd := 3 } 4 2 5 (by decide)

/-- Claim C4 (counterexample): `Close` on a failing OS close surfaces the
bare OS error code, which carries neither the operation name nor the
device path — not every surfaced error carries all three pieces. -/
theorem C4_counterexample :
    (Term.Close { name := "/dev/tty", fd := 3 } (some 9)).2 =
      some (TermError.osError 9) ∧
    TermError.carriesContext (TermError.osError 9) = false :=
  ⟨rfl, rfl⟩

/-- Claim C4 (amended): OS failures of `Open`, `Read` and `Write` are
wrapped with the operation name, the device path and the OS error code;
but `Close`, `SetSpeed`, `Flush`, `SendBreak`, `Status` and `SetStatus`
surface the bare OS error code, with no operation name or path. -/
theorem C4_error_context (name : String) (t : Term) (blen : Nat) (osN : Int)
    (e : Nat) (st : Int) (baud : Int) :
    Open name (.error e) = .error (.pathError "open" name e) ∧
    TermError.carriesContext (.pathError "open" name e) = true ∧
    (t.Read blen osN (some e)).2 = some (.pathError "read" t.name e) ∧
    (t.Write blen (blen : Int) (some e)).2 = some (.pathError "write" t.name e) ∧
    (t.Close (some e)).2 = some (.osError e) ∧
    TermError.carriesContext (.osError e) = false ∧
    t.SetSpeed baud (.error e) none = some (.osError e) ∧
    t.Flush (some e) = some (.osError e) ∧
    t.SendBreak (some e) = some (.osError e) ∧
    (t.Status (.error e)).2 = some (.osError e) ∧
    t.SetStatus st (some e) = some (.osError e) := by
  refine ⟨rfl, rfl, ?_, ?_, rfl, rfl, rfl, rfl, rfl, rfl, rfl⟩
  · simp only [Term.Read]
    have hb : ¬((if osN < 0 then 0 else osN) = 0 ∧ 0 < blen ∧
        (some e : Option Nat) = none) := by simp
    rw [if_neg hb]
  · simp only [Term.Write]
    have hbn : ¬((blen : Int) < 0) := by omega
    rw [if_neg hbn]
    have hne : ¬((blen : Int) ≠ (blen : Int)) := by simp
    rw [if_neg hne]

/-- Claim C6 (spec-modelled `attr.setSpeed`): `SetSpeed` with an
unsupported baud rate — here any negative one — fails with the
attribute error rather than being accepted or rounded. -/
theorem C6_unsupported_baud_fails (t : Term) (a : attr) (osSet : Option Nat)
    (baud : Int) (h : baud < 0) :
    t.SetSpeed baud (.ok a) osSet = some (TermError.attributeError baud) := by
  have hs : speedCode baud = none := by
    have e0 : ¬(baud = 0) := by omega
    have e1 : ¬(baud = 50) := by omega
    have e2 : ¬(baud = 75) := by omega
    have e3 : ¬(baud = 110) := by omega
    have e4 : ¬(baud = 134) := by omega
    have e5 : ¬(baud = 150) := by omega
    have e6 : ¬(baud = 200) := by omega
    have e7 : ¬(baud = 300) := by omega
    have e8 : ¬(baud = 600) := by omega
    have e9 : ¬(baud = 1200) := by omega
    have e10 : ¬(baud = 1800) := by omega
    have e11 : ¬(baud = 2400) := by omega
    have e12 : ¬(baud = 4800) := by omega
    have e13 : ¬(baud = 9600) := by omega
    have e14 : ¬(baud = 19200) := by omega
    have e15 : ¬(baud = 38400) := by omega
    have e16 : ¬(baud = 57600) := by omega
    have e17 : ¬(baud = 115200) := by omega
    have e18 : ¬(baud = 230400) := by omega
    simp only [speedCode]
    rw [if_neg e0, if_neg e1, if_neg e2, if_neg e3, if_neg e4, if_neg e5,
      if_neg e6, if_neg e7, if_neg e8, if_neg e9, if_neg e10, if_neg e11,
      if_neg e12, if_neg e13, if_neg e14, if_neg e15, if_neg e16, if_neg e17,
      if_neg e18]
  simp [Term.SetSpeed, attr.setSpeed, hs]

/-- Claim C6 witness: `SetSpeed` with baud `-1` fails with the attribute
error even when both termios calls would succeed. -/
theorem C6_witness :
    Term.SetSpeed { name := "d", fd := 3 } (-1)
      (.ok { cflag := 0, ispeed := 0, ospeed := 0 }) none =
      some (TermError.attributeError (-1)) :=
  C6_unsupported_baud_fails { name := "d", fd := 3 }
    { cflag := 0, ispeed := 0, ospeed := 0 } none (-1) (by decide)

/-- Claim C7: `Open` passes exactly the no-controlling-terminal,
close-on-exec and read-write flags (524546 on Linux) and mode `0666` to
the OS open syscall, and on OS failure returns no handle but an error
carrying the operation name `"open"`, the path and the OS error code. -/
theorem C7_open_flags_and_error (name : String) (e : Nat) (fd : Nat) :
    Open.call name =
      { path := name, flags := O_NOCTTY ||| O_CLOEXEC ||| O_RDWR, perm := 438 } ∧
    O_NOCTTY ||| O_CLOEXEC ||| O_RDWR = 524546 ∧
    Open name (.error e) = .error (.pathError "open" name e) ∧
    Open name (.ok fd) = .ok { name := name, fd := (fd : Int) } := by
  refine ⟨rfl, by decide, rfl, rfl⟩

/-- Claim C5: `SetDTR true` then `DTR` reads true, `SetDTR false` then
`DTR` reads false, and `SetDTR` leaves every bit other than bit 1 (the
DTR bit, `TIOCM_DTR = 2`) of the status mask unchanged. -/
theorem C5_setDTR_correct (s : Status) (v : Bool) (i : ℕ) :
    Status.DTR (Status.SetDTR s true) = true ∧
    Status.DTR (Status.SetDTR s false) = false ∧
    (i ≠ 1 → Int.testBit (Status.SetDTR s v) i = Int.testBit s i) := by
  refine ⟨?_, ?_, fun hi => ?_⟩
  · have h : Int.land (Int.lor s TIOCM_DTR) TIOCM_DTR = TIOCM_DTR :=
      int_eq_of_testBit_eq fun j => by
        rw [Int.testBit_land, Int.testBit_lor, testBit_TIOCM_DTR]
        cases hj : decide (j = 1) <;> simp
    show (Int.land (Int.lor s TIOCM_DTR) TIOCM_DTR == TIOCM_DTR) = true
    rw [h]
    decide
  · have h : Int.land (Int.land s (Int.lnot TIOCM_DTR)) TIOCM_DTR = 0 :=
      int_eq_of_testBit_eq fun j => by
        rw [Int.testBit_land, Int.testBit_land, Int.testBit_lnot,
          testBit_TIOCM_DTR, show Int.testBit 0 j = Nat.testBit 0 j from rfl,
          Nat.zero_testBit]
        cases hj : decide (j = 1) <;> simp
    show (Int.land (Int.land s (Int.lnot TIOCM_DTR)) TIOCM_DTR == TIOCM_DTR) = false
    rw [h]
    decide
  · cases v
    · show Int.testBit (Int.land s (Int.lnot TIOCM_DTR)) i = Int.testBit s i
      rw [Int.testBit_land, Int.testBit_lnot, testBit_TIOCM_DTR]
      simp [hi]
    · show Int.testBit (Int.lor s TIOCM_DTR) i = Int.testBit s i
      rw [Int.testBit_lor, testBit_TIOCM_DTR]
      simp [hi]

/-- Claim C5 witness: with unrelated bit 2 set beforehand (`s = 4`),
toggling DTR reads back correctly and leaves bit 2 set. -/
theorem C5_witness :
    Status.DTR (Status.SetDTR 4 true) = true ∧
    Status.DTR (Status.SetDTR 4 false) = false ∧
    Int.testBit (Status.SetDTR 4 true) 2 = Int.testBit 4 2 :=
  ⟨(C5_setDTR_correct 4 true 2).1, (C5_setDTR_correct 4 false 2).2.1,
    (C5_setDTR_correct 4 true 2).2.2 (by decide)⟩

/-- Claim C10: `SetDTR` is idempotent — applying it twice with the same
argument yields the same status mask as applying it once. -/
theorem C10_setDTR_idempotent (s : Status) (v : Bool) :
    Status.SetDTR (Status.SetDTR s v) v = Status.SetDTR s v := by
  cases v
  · show Int.land (Int.land s (Int.lnot TIOCM_DTR)) (Int.lnot TIOCM_DTR) =
      Int.land s (Int.lnot TIOCM_DTR)
    refine int_eq_of_testBit_eq fun j => ?_
    rw [Int.testBit_land, Int.testBit_land]
    cases Int.testBit s j <;> cases Int.testBit (Int.lnot TIOCM_DTR) j <;> rfl
  · show Int.lor (Int.lor s TIOCM_DTR) TIOCM_DTR = Int.lor s TIOCM_DTR
    refine int_eq_of_testBit_eq fun j => ?_
    rw [Int.testBit_lor, Int.testBit_lor]
    cases Int.testBit s j <;> cases Int.testBit TIOCM_DTR j <;> rfl
